import Mathlib

/-!
# Static LVGL icon assets of BS14_android_app

Shallow embedding of the two image-asset translation units

* `bs14_flutter_app_code/images/lock_icon.c`   (`lock_icon_map`, `lock_icon`)
* `bs14_flutter_app_code/assets/locked_icon.c` (`locked_icon_map`, `locked_icon`)

Bytes (`uint8_t`) are natural numbers below `2 ^ 8`; a C array is a `List Nat`;
reading past the end of an array is `none`.
-/

namespace BS14

/-! ## C semantics used by the two declarations -/

/-- Conversion of an integer constant to `uint8_t`: the value is reduced
modulo `2 ^ 8` (C unsigned conversion). -/
def to_uint8 (v : Nat) : Nat := v % 2 ^ 8

/-- Array of unknown bound, `uint8_t a[] = { v0, v1, ... }`: exactly one element per
initialiser, each initialiser converted to `uint8_t`. -/
def uint8_array_unsized (inits : List Nat) : List Nat := inits.map to_uint8

/-- Array of declared bound, `uint8_t a[n] = { v0, ... }`: the initialisers come first
(converted to `uint8_t`), the elements without an initialiser are zero. -/
def uint8_array_sized (n : Nat) (inits : List Nat) : List Nat :=
  (inits.map to_uint8).take n ++ List.replicate (n - inits.length) 0

/-- Value of `sizeof(a)` for an array `a` of `uint8_t`: the number of elements times
`sizeof(uint8_t) = 1`. -/
def sizeof_uint8_array (a : List Nat) : Nat := a.length * 1

/-- Bit `i` of `v`, the C expression `(v >> i) & 1`. -/
def bit (v i : Nat) : Nat := (v / 2 ^ i) % 2

/-! ## The LVGL descriptor type (declared in `lvgl.h`, outside the repository) -/

/-- Modelled from the spec: the colour format tag of `lvgl.h`, which is not part of the
repository. The spec gives `colorFormat ∈ {RGB565, A1 (1-bit alpha/monochrome), …}`;
the two enumerators named by the sources are kept by name, every other tag of the
library is `other`. -/
inductive lv_color_format_t where
  | LV_COLOR_FORMAT_RGB565
  | LV_COLOR_FORMAT_A1
  | other (tag : Nat)
  deriving DecidableEq, Repr

/-- Modelled from the spec: the image header of `lvgl.h`, which is not part of the
repository. Its fields are the ones the two sources name: `cf`, `always_zero`, `w`, `h`
(designators of `lock_icon`) and `cf, magic, w, h` (comment of `locked_icon`). A field
without an initialiser is zero, as in C. -/
structure lv_img_header_t where
  cf : lv_color_format_t
  always_zero : Nat
  magic : Nat
  w : Nat
  h : Nat
  deriving DecidableEq, Repr

/-- Modelled from the spec: the image descriptor `lv_img_dsc_t` of `lvgl.h`
(`{colorFormat, width, height, dataSize, pixelBuffer}` in the spec): header, byte count
and the pixel buffer `data` points to. -/
structure lv_img_dsc_t where
  header : lv_img_header_t
  data_size : Nat
  data : List Nat
  deriving DecidableEq, Repr

/-! ## `images/lock_icon.c` -/

/-- The sixteen initialisers of `lock_icon_map` exactly as written in the source
(`/* 16x16, 1bpp, padlock shape: 0=transparent, 1=black */`), before conversion to the
element type. -/
def lock_icon_rows : List Nat :=
  [ 0b0000011111100000,
    0b0001111111111000,
    0b0011111111111100,
    0b0111110000111110,
    0b0111100000011110,
    0b1111000000001111,
    0b1111000000001111,
    0b1111001111001111,
    0b1111001111001111,
    0b1111001111001111,
    0b1111001111001111,
    0b0111101111011110,
    0b0111111111111110,
    0b0011111111111100,
    0b0001111111111000,
    0b0000011111100000 ]

/-- The array `const uint8_t lock_icon_map[] = { ... };`. -/
def lock_icon_map : List Nat := uint8_array_unsized lock_icon_rows

/-- The descriptor `const lv_img_dsc_t lock_icon = { ... };`. -/
def lock_icon : lv_img_dsc_t :=
  { header :=
      { cf := lv_color_format_t.LV_COLOR_FORMAT_A1,
        always_zero := 0,
        magic := 0,
        w := 16,
        h := 16 },
    data_size := sizeof_uint8_array lock_icon_map,
    data := lock_icon_map }

/-! ## `assets/locked_icon.c` -/

/-- The array `const uint8_t locked_icon_map[1024] = { 0 };`. -/
def locked_icon_map : List Nat := uint8_array_sized 1024 [0]

/-- Modelled from the spec: the initialiser written `...data_size...` in the source is
elided there. The spec gives `dataSize` as the exact byte count of the pixel buffer, 1024
for the placeholder, so it is `sizeof(locked_icon_map)`. -/
def locked_icon_data_size : Nat := sizeof_uint8_array locked_icon_map

/-- Modelled from the spec: the initialiser written `...data...` in the source is elided
there. The spec gives the pixel buffer of the placeholder as the 1024-byte array of zeros
declared in the same file, `locked_icon_map`. -/
def locked_icon_data : List Nat := locked_icon_map

/-- The descriptor `const lv_img_dsc_t locked_icon = { {cf, magic, w, h}, ..., ... };`
with the header initialised by position in the order the source comment gives
(`// header: cf, magic, w, h`). The macro `LV_IMAGE_HEADER_MAGIC` is defined by `lvgl.h`,
outside the repository, and is a parameter here. -/
def locked_icon (LV_IMAGE_HEADER_MAGIC : Nat) : lv_img_dsc_t :=
  { header :=
      { cf := lv_color_format_t.LV_COLOR_FORMAT_RGB565,
        always_zero := 0,
        magic := LV_IMAGE_HEADER_MAGIC,
        w := 368,
        h := 365 },
    data_size := locked_icon_data_size,
    data := locked_icon_data }

/-! ## Size implied by a header (spec sections 3, 7 and 8) -/

/-- Modelled from the spec: bits per pixel of a colour format (`A1` is 1 bit per pixel,
`RGB565` is 16 bits per pixel); the library macro that computes it is in `lvgl.h`. No
depth is known for the other tags. -/
def bitsPerPixel : lv_color_format_t → Option Nat
  | lv_color_format_t.LV_COLOR_FORMAT_A1 => some 1
  | lv_color_format_t.LV_COLOR_FORMAT_RGB565 => some 16
  | lv_color_format_t.other _ => none

/-- Quotient rounded up: `ceil (a / b)`. -/
def ceilDiv (a b : Nat) : Nat := (a + b - 1) / b

/-- Modelled from the spec: `expectedSize(width, height, colorFormat)`, the byte size
implied by a header, `height * ceil (width * bitsPerPixel / 8)` (rows byte aligned). -/
def expectedSize (w h : Nat) (cf : lv_color_format_t) : Option Nat :=
  (bitsPerPixel cf).map fun bpp => h * ceilDiv (w * bpp) 8

/-- Modelled from the spec: the conformance check of section 7,
`dataSize == expectedSize(width, height, colorFormat)`. -/
def conformanceCheck (d : lv_img_dsc_t) : Bool :=
  expectedSize d.header.w d.header.h d.header.cf == some d.data_size

/-- Modelled from the spec: pixel `(r, c)` of a logical bitmap given by 16-bit row
patterns, leftmost pixel in the most significant bit: bit `15 - c` of row `r`. -/
def shapePixel (rows : List Nat) (r c : Nat) : Option Nat :=
  (rows[r]?).map fun p => bit p (15 - c)

/-- Modelled from the spec: pixel `(r, c)` read from a 1 bit per pixel buffer with `w`
pixels per row (section 4.1: bit-packed per row, most significant bit first, rows byte
aligned): bit `7 - c % 8` of the byte at index `ceil (w / 8) * r + c / 8`; `none` when
that index is outside the buffer. -/
def bufferPixel (buf : List Nat) (w r c : Nat) : Option Nat :=
  (buf[ceilDiv w 8 * r + c / 8]?).map fun b => bit b (7 - c % 8)

/-- Reversal of the eight bits of a byte. -/
def reverseBits8 (b : Nat) : Nat :=
  (List.range 8).foldl (fun acc i => acc + bit b i * 2 ^ (7 - i)) 0

/-! ## Helper lemmas -/

lemma length_uint8_array_sized (n : Nat) (inits : List Nat) :
    (uint8_array_sized n inits).length = n := by
  simp only [uint8_array_sized, List.length_append, List.length_take, List.length_map,
    List.length_replicate]
  omega

lemma uint8_array_sized_single_zero (n : Nat) :
    uint8_array_sized (n + 1) [0] = List.replicate (n + 1) 0 := by
  simp [uint8_array_sized, to_uint8, List.replicate_succ]

lemma locked_icon_map_eq_replicate : locked_icon_map = List.replicate 1024 0 :=
  uint8_array_sized_single_zero 1023

lemma sizeof_locked_icon_map : sizeof_uint8_array locked_icon_map = 1024 := by
  simp [sizeof_uint8_array, locked_icon_map, length_uint8_array_sized]

lemma expectedSize_locked_icon (magic : Nat) :
    expectedSize (locked_icon magic).header.w (locked_icon magic).header.h
      (locked_icon magic).header.cf = some 268640 := by
  show expectedSize 368 365 lv_color_format_t.LV_COLOR_FORMAT_RGB565 = some 268640
  decide

lemma to_uint8_high_bits (hi8 p : Nat) : to_uint8 (hi8 * 2 ^ 8 + p % 2 ^ 8) = p % 2 ^ 8 := by
  unfold to_uint8
  omega

/-! ## The claims -/

/-- C1 (as stated, refuted): the byte size of every asset's pixel data equals the size
implied by its header. For the placeholder `locked_icon` the equation
`dataSize = height * ceil (width * bitsPerPixel / 8)` holds for no value of the header
magic. -/
theorem C1_size_invariant_fails_for_placeholder :
    ¬ ∃ magic : Nat,
      expectedSize (locked_icon magic).header.w (locked_icon magic).header.h
        (locked_icon magic).header.cf = some (locked_icon magic).data_size := by
  rintro ⟨magic, h⟩
  have hs : (locked_icon magic).data_size = 1024 := sizeof_locked_icon_map
  rw [hs, expectedSize_locked_icon] at h
  revert h
  decide

/-- C1 (amended): the size implied by a header is `height * ceil (width * bitsPerPixel / 8)`
with 1 bit per pixel for A1 and 16 for RGB565, which is 32 bytes for `lock_icon` and
268,640 bytes for `locked_icon`; the placeholder `locked_icon` carries the 1024-byte
buffer `locked_icon_map`, so its data size is 1024 and smaller than the implied size. -/
theorem C1_implied_sizes_and_placeholder_undersized (magic : Nat) :
    bitsPerPixel lv_color_format_t.LV_COLOR_FORMAT_A1 = some 1 ∧
    bitsPerPixel lv_color_format_t.LV_COLOR_FORMAT_RGB565 = some 16 ∧
    expectedSize lock_icon.header.w lock_icon.header.h lock_icon.header.cf = some 32 ∧
    expectedSize (locked_icon magic).header.w (locked_icon magic).header.h
      (locked_icon magic).header.cf = some 268640 ∧
    (locked_icon magic).data = locked_icon_map ∧
    sizeof_uint8_array locked_icon_map = 1024 ∧
    (locked_icon magic).data_size = 1024 ∧
    (locked_icon magic).data_size < 268640 := by
  have hs : (locked_icon magic).data_size = 1024 := sizeof_locked_icon_map
  refine ⟨rfl, rfl, by decide, expectedSize_locked_icon magic, rfl, sizeof_locked_icon_map,
    hs, ?_⟩
  rw [hs]
  decide

/-- C2 (the code evaluated): `lock_icon_map` has 16 elements of one byte each, so
`sizeof(lock_icon_map)` and `lock_icon.data_size` are 16, while the header of `lock_icon`
(A1, 16 x 16) implies `ceil (width / 8) * height = 2 * 16 = 32` bytes. -/
theorem C2_lock_icon_data_size_is_16_where_32_implied :
    lock_icon.header.cf = lv_color_format_t.LV_COLOR_FORMAT_A1 ∧
    lock_icon.header.w = 16 ∧ lock_icon.header.h = 16 ∧
    ceilDiv lock_icon.header.w 8 * lock_icon.header.h = 32 ∧
    lock_icon_map.length = 16 ∧
    sizeof_uint8_array lock_icon_map = 16 ∧
    lock_icon.data_size = 16 ∧
    lock_icon.data_size ≠ ceilDiv lock_icon.header.w 8 * lock_icon.header.h := by
  decide

/-- C3: for the placeholder `locked_icon` (368 x 365, RGB565) the expected byte size is
`368 * 365 * 2 = 268,640`, its buffer `locked_icon_map` is 1024 bytes, and the conformance
check `dataSize == expectedSize(width, height, colorFormat)` fails for it. -/
theorem C3_placeholder_fails_conformance_check (magic : Nat) :
    (locked_icon magic).header.w = 368 ∧
    (locked_icon magic).header.h = 365 ∧
    (locked_icon magic).header.cf = lv_color_format_t.LV_COLOR_FORMAT_RGB565 ∧
    expectedSize 368 365 lv_color_format_t.LV_COLOR_FORMAT_RGB565 = some (368 * 365 * 2) ∧
    368 * 365 * 2 = 268640 ∧
    sizeof_uint8_array locked_icon_map = 1024 ∧
    (locked_icon magic).data_size = 1024 ∧
    conformanceCheck (locked_icon magic) = false := by
  have hs : (locked_icon magic).data_size = 1024 := sizeof_locked_icon_map
  refine ⟨rfl, rfl, rfl, by decide, by decide, sizeof_locked_icon_map, hs, ?_⟩
  unfold conformanceCheck
  rw [hs, expectedSize_locked_icon]
  decide

/-- C4 (the code evaluated): the buffer of `lock_icon` is not the padlock shape packed
two bytes per row, most significant bit first. At `(r, c) = (0, 0)` the shape has pixel 0
(bit 15 of the first row pattern) and bit 7 of byte 0 of `lock_icon_map` is 1; at
`(r, c) = (8, 0)` the byte index `2 * 8 + 0 = 16` is past the end of the 16-byte array. -/
theorem C4_lock_icon_buffer_is_not_the_packed_shape :
    shapePixel lock_icon_rows 0 0 = some 0 ∧
    bufferPixel lock_icon.data lock_icon.header.w 0 0 = some 1 ∧
    lock_icon.data[2 * 0 + 0 / 8]? = some 0xE0 ∧
    shapePixel lock_icon_rows 8 0 = some 1 ∧
    bufferPixel lock_icon.data lock_icon.header.w 8 0 = none ∧
    lock_icon.data[2 * 8 + 0 / 8]? = none := by
  decide

/-- C5: `lock_icon.data_size` is the exact byte count of the buffer its `data` field
points to: it is `sizeof(lock_icon_map)`, which is the number of elements of the `uint8_t`
array `lock_icon_map`, and `data` is `lock_icon_map` itself. -/
theorem C5_lock_icon_data_size_is_buffer_byte_count :
    lock_icon.data_size = sizeof_uint8_array lock_icon_map ∧
    sizeof_uint8_array lock_icon_map = lock_icon_map.length ∧
    lock_icon.data = lock_icon_map ∧
    lock_icon.data_size = lock_icon.data.length := by
  decide

/-- C6: the placeholder buffer `locked_icon_map` has exactly 1024 bytes and every one of
them is zero: `locked_icon_map[i] = 0` for every index `i < 1024`. -/
theorem C6_locked_icon_map_all_zero (i : Nat) (hi : i < 1024) :
    locked_icon_map.length = 1024 ∧ locked_icon_map[i]? = some 0 := by
  rw [locked_icon_map_eq_replicate]
  refine ⟨List.length_replicate _ _, ?_⟩
  rw [List.getElem?_replicate]
  simp [hi]

/-- Witness for C6 at index 1023, the last byte of the buffer. -/
theorem C6_locked_icon_map_all_zero_witness :
    1023 < 1024 ∧ locked_icon_map.length = 1024 ∧ locked_icon_map[1023]? = some 0 :=
  ⟨by decide, C6_locked_icon_map_all_zero 1023 (by decide)⟩

/-- C7: every asset header carries a colour format from {RGB565, A1} and positive
dimensions. `lock_icon` has format A1, width 16 and height 16, matching its bitmap of 16
rows of 16-bit patterns (16 initialisers, all below `2 ^ 16`, the widest using bit 15);
`locked_icon` has format RGB565, width 368 and height 365. -/
theorem C7_headers_carry_format_and_dimensions (magic : Nat) :
    lock_icon.header.cf = lv_color_format_t.LV_COLOR_FORMAT_A1 ∧
    lock_icon.header.w = 16 ∧
    lock_icon.header.h = 16 ∧
    lock_icon_rows.length = lock_icon.header.h ∧
    lock_icon_rows.all (fun p => decide (p < 2 ^ lock_icon.header.w)) = true ∧
    lock_icon_rows.any (fun p => decide (2 ^ (lock_icon.header.w - 1) ≤ p)) = true ∧
    (locked_icon magic).header.cf = lv_color_format_t.LV_COLOR_FORMAT_RGB565 ∧
    (locked_icon magic).header.w = 368 ∧
    (locked_icon magic).header.h = 365 ∧
    (lock_icon.header.cf = lv_color_format_t.LV_COLOR_FORMAT_RGB565 ∨
      lock_icon.header.cf = lv_color_format_t.LV_COLOR_FORMAT_A1) ∧
    ((locked_icon magic).header.cf = lv_color_format_t.LV_COLOR_FORMAT_RGB565 ∨
      (locked_icon magic).header.cf = lv_color_format_t.LV_COLOR_FORMAT_A1) ∧
    0 < lock_icon.header.w ∧ 0 < lock_icon.header.h ∧
    0 < (locked_icon magic).header.w ∧ 0 < (locked_icon magic).header.h := by
  refine ⟨rfl, rfl, rfl, by decide, by decide, by decide, rfl, rfl, rfl, Or.inr rfl,
    Or.inl rfl, by decide, by decide, ?_, ?_⟩
  · show 0 < 368
    decide
  · show 0 < 365
    decide

/-- C8: `lock_icon_map` is an array of `uint8_t` initialised with 16 sixteen-bit patterns,
so it has exactly 16 elements, `[0xE0, 0xF8, 0xFC, 0x3E, 0x1E, 0x0F, 0x0F, 0xCF, 0xCF, 0xCF,
0xCF, 0xDE, 0xFE, 0xFC, 0xF8, 0xE0]`, and `lock_icon.data_size` is 16. The element stored
for row `r` is the row pattern modulo `2 ^ 8`; it is the same byte whatever the high eight
bits of the pattern are, and no further byte of the buffer holds them. -/
theorem C8_lock_icon_map_keeps_low_bytes (r : Nat) (hr : r < 16) :
    lock_icon_map = [0xE0, 0xF8, 0xFC, 0x3E, 0x1E, 0x0F, 0x0F, 0xCF, 0xCF, 0xCF, 0xCF, 0xDE,
      0xFE, 0xFC, 0xF8, 0xE0] ∧
    lock_icon_map.length = 16 ∧
    lock_icon.data_size = 16 ∧
    lock_icon_map = lock_icon_rows.map (fun p => p % 2 ^ 8) ∧
    lock_icon_map[16]? = none ∧
    ∃ p, lock_icon_rows[r]? = some p ∧ lock_icon_map[r]? = some (p % 2 ^ 8) ∧
      ∀ hi8 : Nat, to_uint8 (hi8 * 2 ^ 8 + p % 2 ^ 8) = p % 2 ^ 8 := by
  have key : ∀ r, r < 16 →
      lock_icon_rows[r]? = some (lock_icon_rows.getD r 0) ∧
      lock_icon_map[r]? = some (lock_icon_rows.getD r 0 % 2 ^ 8) := by
    decide
  refine ⟨by decide, by decide, by decide, by decide, by decide, ?_⟩
  exact ⟨_, (key r hr).1, (key r hr).2, fun hi8 => to_uint8_high_bits hi8 _⟩

/-- Witness for C8 at row 3, whose pattern `0b0111110000111110` is stored as `0x3E`. -/
theorem C8_lock_icon_map_keeps_low_bytes_witness :
    3 < 16 ∧
    (lock_icon_map = [0xE0, 0xF8, 0xFC, 0x3E, 0x1E, 0x0F, 0x0F, 0xCF, 0xCF, 0xCF, 0xCF, 0xDE,
      0xFE, 0xFC, 0xF8, 0xE0] ∧
    lock_icon_map.length = 16 ∧
    lock_icon.data_size = 16 ∧
    lock_icon_map = lock_icon_rows.map (fun p => p % 2 ^ 8) ∧
    lock_icon_map[16]? = none ∧
    ∃ p, lock_icon_rows[3]? = some p ∧ lock_icon_map[3]? = some (p % 2 ^ 8) ∧
      ∀ hi8 : Nat, to_uint8 (hi8 * 2 ^ 8 + p % 2 ^ 8) = p % 2 ^ 8) :=
  ⟨by decide, C8_lock_icon_map_keeps_low_bytes 3 (by decide)⟩

/-- C9: every one of the 16 sixteen-bit row patterns written in `lock_icon_map` is
left-right mirror symmetric: for every row `r < 16` and bit position `i < 16`, bit `i` of
the pattern equals bit `15 - i`; consequently the low byte kept in the buffer is the
bit reversal of the discarded high byte. -/
theorem C9_row_patterns_mirror_symmetric (r i : Nat) (hr : r < 16) (hi : i < 16) :
    ∃ p, lock_icon_rows[r]? = some p ∧ p < 2 ^ 16 ∧
      bit p i = bit p (15 - i) ∧
      lock_icon_map[r]? = some (p % 2 ^ 8) ∧
      p % 2 ^ 8 = reverseBits8 (p / 2 ^ 8) := by
  have key : ∀ r, r < 16 → ∀ i, i < 16 →
      lock_icon_rows[r]? = some (lock_icon_rows.getD r 0) ∧
      lock_icon_rows.getD r 0 < 2 ^ 16 ∧
      bit (lock_icon_rows.getD r 0) i = bit (lock_icon_rows.getD r 0) (15 - i) ∧
      lock_icon_map[r]? = some (lock_icon_rows.getD r 0 % 2 ^ 8) ∧
      lock_icon_rows.getD r 0 % 2 ^ 8 = reverseBits8 (lock_icon_rows.getD r 0 / 2 ^ 8) := by
    decide
  exact ⟨_, key r hr i hi⟩

/-- Witness for C9 at row 11 (`0b0111101111011110`) and bit 5. -/
theorem C9_row_patterns_mirror_symmetric_witness :
    11 < 16 ∧ 5 < 16 ∧
    ∃ p, lock_icon_rows[11]? = some p ∧ p < 2 ^ 16 ∧
      bit p 5 = bit p (15 - 5) ∧
      lock_icon_map[11]? = some (p % 2 ^ 8) ∧
      p % 2 ^ 8 = reverseBits8 (p / 2 ^ 8) :=
  ⟨by decide, by decide, C9_row_patterns_mirror_symmetric 11 5 (by decide) (by decide)⟩

end BS14
